import Mathlib

/-!
Verification of the SEO ranking pipeline (scraper + multi-agent analysis with
rate-limit-aware retry control).

The development shallowly embeds the core of the repository:
  * `utils.py` — `handle_rate_limit`, `is_rate_limit_error`;
  * `config.py` — the retry/pacing constants;
  * the per-stage retry loop shared by `keyword_analyzer_agent.py`,
    `backlink_analyzer_agent.py`, `url_analyzer_agent.py`,
    `seo_analyzer_agent.py` and `image_analyzer_agent.py`;
  * `image_analyzer_agent.py` — filtering, base64 conversion, per-image
    descriptions and the aggregate analysis call.

External effects (network calls, the filesystem, `random.uniform`) are passed
in as explicit oracles; sleeps and file writes are recorded in traces instead
of performed.
-/

/-! ## Configuration (`config.py`) -/

namespace Config

/-- `Config.MAX_RETRIES = 3` (`config.py` line 16/25). -/
def MAX_RETRIES : Nat := 3

/-- `Config.RATE_LIMIT_DELAY = 30` seconds (`config.py` line 15). -/
def RATE_LIMIT_DELAY : ℚ := 30

/-- `Config.API_CALL_DELAY = 25` seconds (`config.py` line 17). -/
def API_CALL_DELAY : ℚ := 25

/-- `Config.OUTPUT_DIR = "seo_output"` (`config.py` line 20). -/
def OUTPUT_DIR : String := "seo_output"

end Config

/-! ## Rate-limit controller (`utils.py`) -/

/-- The characters of `s`, lowercased — Python's `str(error).lower()` viewed
as a character list. -/
def lowerChars (s : String) : List Char :=
  s.data.map Char.toLower

/-- Python's `str.strip()` (no arguments): drop whitespace from both ends.
Every agent applies it to the response text
(`response.choices[0].message.content.strip()`). -/
def pyStrip (s : String) : String :=
  String.mk
    (((s.data.dropWhile Char.isWhitespace).reverse.dropWhile
        Char.isWhitespace).reverse)

/-- Python's substring test `phrase in s`, on an already-lowercased character
list. -/
def strContains (s : List Char) (phrase : String) : Bool :=
  decide (phrase.data <:+: s)

/-- The five markers of `is_rate_limit_error` (`utils.py` lines 33–35). -/
def rateLimitMarkers : List String :=
  ["rate limit", "rate_limit", "tpm", "tokens per minute", "limit exceeded"]

/-- `is_rate_limit_error(error)` (`utils.py` lines 30–35): lowercase the
error's message and test membership of any of the five markers. -/
def is_rate_limit_error (error : String) : Bool :=
  let error_str := lowerChars error
  rateLimitMarkers.any (fun phrase => strContains error_str phrase)

/-- The message of the exception raised by `handle_rate_limit` when retries
are exhausted (`utils.py` line 23): the f-string
`f"Rate limit exceeded after {max_retries} retries"`. The same message is
raised by each agent when its retry loop exits (e.g.
`keyword_analyzer_agent.py` line 56). -/
def rateLimitExhaustedMessage (max_retries : Nat) : String :=
  "Rate limit exceeded after " ++ toString max_retries ++ " retries"

/-- Outcome of one call to `handle_rate_limit`: either the exhaustion
exception was raised (before any sleep), or the function slept for `sleep`
seconds and returned `next`. -/
inductive RetryOutcome where
  | exhausted (msg : String)
  | retried (sleep : ℚ) (next : Nat)
deriving DecidableEq, Repr

/-- Backoff sleeps actually performed by a `handle_rate_limit` call. -/
def RetryOutcome.sleeps : RetryOutcome → List ℚ
  | .exhausted _ => []
  | .retried s _ => [s]

/-- `handle_rate_limit(retry_count, max_retries, base_delay)` (`utils.py`
lines 20–28). The exhaustion check comes first; only the non-exhausted
branch computes `base_delay * (2 ** retry_count) + random.uniform(0, 1)`,
sleeps that long and returns `retry_count + 1`. The draw of
`random.uniform(0, 1)` is passed in as `jitter`. -/
def handle_rate_limit (retry_count max_retries : Nat) (base_delay jitter : ℚ) :
    RetryOutcome :=
  if retry_count ≥ max_retries then
    .exhausted (rateLimitExhaustedMessage max_retries)
  else
    .retried (base_delay * 2 ^ retry_count + jitter) (retry_count + 1)

/-! ## Theorems about the rate-limit controller -/

/-- Boolean marker containment agrees with list-infix containment. -/
lemma strContains_iff (s : List Char) (phrase : String) :
    strContains s phrase = true ↔ phrase.data <:+: s := by
  simp [strContains]

/-- **C3.** Whenever `retry_count ≥ max_retries`, `handle_rate_limit` raises
the exhaustion exception and performs no sleep at all: the exhaustion check
precedes the backoff sleep. -/
theorem handle_rate_limit_exhausts_before_sleep
    (retry_count max_retries : Nat) (base_delay jitter : ℚ)
    (h : retry_count ≥ max_retries) :
    handle_rate_limit retry_count max_retries base_delay jitter
        = .exhausted (rateLimitExhaustedMessage max_retries)
      ∧ (handle_rate_limit retry_count max_retries base_delay jitter).sleeps
        = [] := by
  simp [handle_rate_limit, h, RetryOutcome.sleeps]

/-- Witness for C3 at `retry_count = max_retries = 3`. -/
theorem handle_rate_limit_exhausts_before_sleep_witness :
    handle_rate_limit 3 3 20 0
        = .exhausted (rateLimitExhaustedMessage 3)
      ∧ (handle_rate_limit 3 3 20 0).sleeps = [] :=
  handle_rate_limit_exhausts_before_sleep 3 3 20 0 (by decide)

/-- **C4.** `is_rate_limit_error` returns `true` exactly when the lowercased
message contains one of the five fixed markers; on any message containing no
marker it returns `false`. -/
theorem is_rate_limit_error_iff_marker (error : String) :
    is_rate_limit_error error = true
      ↔ ∃ phrase ∈ rateLimitMarkers, phrase.data <:+: lowerChars error := by
  simp [is_rate_limit_error, List.any_eq_true, strContains_iff]

/-- **C7.** For `retry_count < max_retries` and jitter in `[0, 1)`,
`handle_rate_limit` sleeps exactly `base_delay * 2 ^ retry_count + jitter`
seconds — a duration inside `[base*2^attempt, base*2^attempt + 1)` — and
returns `retry_count + 1`. -/
theorem handle_rate_limit_backoff
    (retry_count max_retries : Nat) (base_delay jitter : ℚ)
    (h : retry_count < max_retries) (hj0 : 0 ≤ jitter) (hj1 : jitter < 1) :
    handle_rate_limit retry_count max_retries base_delay jitter
        = .retried (base_delay * 2 ^ retry_count + jitter) (retry_count + 1)
      ∧ base_delay * 2 ^ retry_count
          ≤ base_delay * 2 ^ retry_count + jitter
      ∧ base_delay * 2 ^ retry_count + jitter
          < base_delay * 2 ^ retry_count + 1 := by
  refine ⟨?_, by linarith, by linarith⟩
  simp [handle_rate_limit, Nat.not_le.mpr h]

/-- Witness for C7 at attempt 1 of 3, base delay 30, jitter 1/2. -/
theorem handle_rate_limit_backoff_witness :
    handle_rate_limit 1 3 30 (1/2) = .retried (30 * 2 ^ 1 + 1/2) (1 + 1)
      ∧ (30 : ℚ) * 2 ^ 1 ≤ 30 * 2 ^ 1 + 1/2
      ∧ (30 : ℚ) * 2 ^ 1 + 1/2 < 30 * 2 ^ 1 + 1 :=
  handle_rate_limit_backoff 1 3 30 (1/2) (by decide) (by norm_num) (by norm_num)

/-- The lowercase exhaustion message contains the marker `"limit exceeded"`,
whatever the retry bound's decimal rendering is. -/
lemma exhaust_message_contains_marker (n : Nat) :
    "limit exceeded".data <:+: lowerChars (rateLimitExhaustedMessage n) := by
  refine ⟨"rate ".data,
    " after ".data ++ (toString n).data.map Char.toLower
      ++ " retries".data.map Char.toLower, ?_⟩
  have h1 : ("Rate limit exceeded after ".data).map Char.toLower
      = "rate ".data ++ "limit exceeded".data ++ " after ".data := by decide
  simp [lowerChars, rateLimitExhaustedMessage, List.map_append, h1,
    List.append_assoc]

/-- **C10.** Running out of retries raises the exception with message
`"Rate limit exceeded after {max_retries} retries"`, and `is_rate_limit_error`
classifies that very message as a rate-limit failure (it contains the marker
`"limit exceeded"`), for every retry bound. -/
theorem exhaustion_error_is_rate_limit (n : Nat) (base_delay jitter : ℚ) :
    handle_rate_limit n n base_delay jitter
        = .exhausted (rateLimitExhaustedMessage n)
      ∧ is_rate_limit_error (rateLimitExhaustedMessage n) = true := by
  constructor
  · simp [handle_rate_limit]
  · refine (is_rate_limit_error_iff_marker _).mpr ?_
    exact ⟨"limit exceeded", by simp [rateLimitMarkers],
      exhaust_message_contains_marker n⟩

/-! ## Data model: the shared SEO document -/

/-- One image reference in the scraped document, as the dicts in
`seo_data['images']`. `base64_data` and `mime_type` are absent until the
image stage adds them; the base64 payload is abstracted to the raw file
contents. -/
structure ImageRef where
  url : String
  alt : String
  title : String
  local_path : Option String
  base64_data : Option String
  mime_type : Option String
deriving DecidableEq, Repr

/-- The shared mutable document (`seo_data`) threaded through the pipeline:
the scraped fields plus one optional slot per analysis stage. -/
structure SeoDocument where
  url : String
  title : String
  meta_tags : List (String × String)
  headings : List String
  paragraphs : List String
  images : List ImageRef
  content_analysis : Option String
  image_analysis : Option String
  keyword_analysis : Option String
  backlink_analysis : Option String
  url_analysis : Option String
  image_descriptions : List (String × String)
deriving DecidableEq, Repr

/-- Result of one call to the external reasoning service: the response text,
or a raised exception's message. -/
inductive CallResult where
  | ok (text : String)
  | err (msg : String)
deriving DecidableEq, Repr

/-- `urlparse(url).netloc` for the `http(s)://` URLs this pipeline produces
(`validate_url` in `main.py` prefixes `https://` when no scheme is present):
the host part between the scheme separator and the first `/`, `?` or `#`.
URLs without a scheme parse to an empty netloc. -/
def netlocOf (url : String) : String :=
  let cs := url.data
  if cs.take 8 = "https://".data then
    String.mk ((cs.drop 8).takeWhile (fun c => c ≠ '/' && c ≠ '?' && c ≠ '#'))
  else if cs.take 7 = "http://".data then
    String.mk ((cs.drop 7).takeWhile (fun c => c ≠ '/' && c ≠ '?' && c ≠ '#'))
  else ""

/-- `domain.replace('.', '_')`: replacement of every occurrence of the
single character `.` by `_`. -/
def replaceDots (s : String) : String :=
  String.mk (s.data.map (fun c => if c = '.' then '_' else c))

/-- The aggregate persist path used by the analysis agents:
`os.path.join(Config.OUTPUT_DIR, f"{domain.replace('.', '_')}_analysis.json")`
with `domain = urlparse(seo_data.get('url', 'unknown')).netloc`. -/
def analysisJsonPath (doc : SeoDocument) : String :=
  Config.OUTPUT_DIR ++ "/" ++ replaceDots (netlocOf doc.url)
    ++ "_analysis.json"

/-- The report path used by `seo_analyzer_agent.py` (line 43):
`f"{domain.replace('.', '_')}_final_report.txt"`. -/
def finalReportPath (doc : SeoDocument) : String :=
  Config.OUTPUT_DIR ++ "/" ++ replaceDots (netlocOf doc.url)
    ++ "_final_report.txt"

/-! ## The shared per-stage retry loop -/

/-- Trace of one run of an agent's `while retry_count < Config.MAX_RETRIES`
loop: how many external calls were attempted, how many `handle_rate_limit`
calls were made, the backoff sleeps performed, and either the raised
exception's message or the successful (stripped) response text. -/
structure LoopOut where
  numCalls : Nat
  retryCalls : Nat
  retrySleeps : List ℚ
  result : Except String String
deriving Repr

/-- The retry loop shared by all five agents (e.g.
`keyword_analyzer_agent.py` lines 28–56). `oracle i` is the outcome of the
`i`-th external call, `jitter i` the `i`-th draw of `random.uniform(0, 1)`.
`fuel` is the number of loop iterations still permitted; the loop increments
`retry_count` by exactly one per failing iteration, so the entry point
`fuel = max_retries`, `retry_count = 0` makes `fuel` run out exactly when the
`while` guard fails, and both exits raise the same exhaustion exception (the
agents' line 56). On success the response text is stripped
(`.strip()` → `pyStrip`); a non-rate-limit exception is re-raised
(`raise e`); a rate-limit exception goes through `handle_rate_limit`. -/
def stageLoop (oracle : Nat → CallResult) (jitter : Nat → ℚ)
    (max_retries : Nat) (base_delay : ℚ) :
    Nat → Nat → Nat → LoopOut
  | 0, _, _ => ⟨0, 0, [], .error (rateLimitExhaustedMessage max_retries)⟩
  | fuel + 1, retry_count, callIdx =>
    if retry_count < max_retries then
      match oracle callIdx with
      | .ok text => ⟨1, 0, [], .ok (pyStrip text)⟩
      | .err msg =>
        if is_rate_limit_error msg then
          match handle_rate_limit retry_count max_retries base_delay
              (jitter callIdx) with
          | .exhausted m => ⟨1, 1, [], .error m⟩
          | .retried sl next =>
            let rest := stageLoop oracle jitter max_retries base_delay
              fuel next (callIdx + 1)
            ⟨rest.numCalls + 1, rest.retryCalls + 1, sl :: rest.retrySleeps,
              rest.result⟩
        else ⟨1, 0, [], .error msg⟩
    else ⟨0, 0, [], .error (rateLimitExhaustedMessage max_retries)⟩

/-- What an agent function returns to its caller: the
`{"..._complete": True, "file": filepath}` dict, or the
`{"error": str(e)}` dict produced by the outer `except` clause. -/
inductive StageOutcome where
  | complete (file : String)
  | error (msg : String)
deriving DecidableEq, Repr

/-- A file write performed by a stage: the whole document as JSON
(`json.dump(seo_data, f)`) or a plain text report (`f.write(report)`). -/
inductive PersistEvent where
  | docWrite (path : String) (doc : SeoDocument)
  | textWrite (path : String) (text : String)
deriving DecidableEq, Repr

/-- Full observable trace of one stage invocation. `finalDoc` is the shared
document as the caller sees it afterwards (the agents mutate `seo_data` in
place). -/
structure StageTrace where
  pacingSleeps : List ℚ
  numCalls : Nat
  retryCalls : Nat
  retrySleeps : List ℚ
  persists : List PersistEvent
  finalDoc : SeoDocument
  outcome : StageOutcome
deriving DecidableEq, Repr

/-- The common body of `analyze_keywords`, `analyze_backlinks` and
`analyze_urls` (and, per the spec, the content stage): pacing delay
(`delay_between_calls(Config.API_CALL_DELAY)`), then the retry loop; on
success the loop body writes the stripped analysis into the agent's slot
(`write`), persists the whole mutated document to the aggregate JSON path and
returns the completion dict (e.g. `keyword_analyzer_agent.py` lines 39–46);
any exception escaping the loop is caught by the outer `except`, which logs
and returns `{"error": str(e)}` — leaving the document untouched and
persisting nothing. -/
def runTextStage (write : SeoDocument → String → SeoDocument)
    (oracle : Nat → CallResult) (jitter : Nat → ℚ) (doc : SeoDocument) :
    StageTrace :=
  let lo := stageLoop oracle jitter Config.MAX_RETRIES Config.RATE_LIMIT_DELAY
    Config.MAX_RETRIES 0 0
  match lo.result with
  | .ok analysis =>
    let doc' := write doc analysis
    let path := analysisJsonPath doc'
    ⟨[Config.API_CALL_DELAY], lo.numCalls, lo.retryCalls, lo.retrySleeps,
      [.docWrite path doc'], doc', .complete path⟩
  | .error msg =>
    ⟨[Config.API_CALL_DELAY], lo.numCalls, lo.retryCalls, lo.retrySleeps,
      [], doc, .error msg⟩

/-- `KeywordAnalyzerAgent.analyze_keywords` (`keyword_analyzer_agent.py`):
writes the `keyword_analysis` slot. -/
def analyze_keywords : (Nat → CallResult) → (Nat → ℚ) → SeoDocument →
    StageTrace :=
  runTextStage (fun d a => { d with keyword_analysis := some a })

/-- `BacklinkAnalyzerAgent.analyze_backlinks`
(`backlink_analyzer_agent.py`): writes the `backlink_analysis` slot. -/
def analyze_backlinks : (Nat → CallResult) → (Nat → ℚ) → SeoDocument →
    StageTrace :=
  runTextStage (fun d a => { d with backlink_analysis := some a })

/-- `URLAnalyzerAgent.analyze_urls` (`url_analyzer_agent.py`): writes the
`url_analysis` slot. -/
def analyze_urls : (Nat → CallResult) → (Nat → ℚ) → SeoDocument →
    StageTrace :=
  runTextStage (fun d a => { d with url_analysis := some a })

/-- Modelled from the spec: `content_analyzer_agent.py` is imported by
`main.py` but absent from the sources available here; per §4.2 the five
stage types share an identical skeleton and differ only in prompt and output
slot, so the content stage is the generic text stage writing the
`content_analysis` slot. -/
def analyze_content : (Nat → CallResult) → (Nat → ℚ) → SeoDocument →
    StageTrace :=
  runTextStage (fun d a => { d with content_analysis := some a })

/-- `SEOAnalyzerAgent.analyze_seo_performance` (`seo_analyzer_agent.py`):
same pacing and retry loop, but the success branch (lines 41–47) writes the
stripped report to the `_final_report.txt` path as plain text and never
mutates `seo_data`. -/
def analyze_seo_performance (oracle : Nat → CallResult) (jitter : Nat → ℚ)
    (doc : SeoDocument) : StageTrace :=
  let lo := stageLoop oracle jitter Config.MAX_RETRIES Config.RATE_LIMIT_DELAY
    Config.MAX_RETRIES 0 0
  match lo.result with
  | .ok report =>
    let path := finalReportPath doc
    ⟨[Config.API_CALL_DELAY], lo.numCalls, lo.retryCalls, lo.retrySleeps,
      [.textWrite path report], doc, .complete path⟩
  | .error msg =>
    ⟨[Config.API_CALL_DELAY], lo.numCalls, lo.retryCalls, lo.retrySleeps,
      [], doc, .error msg⟩

/-! ## Image stage (`image_analyzer_agent.py`) -/

/-- `os.path.splitext(p)[1]`: the extension of the last path component,
from its last dot; a basename whose only dots are leading ones (or that has
no dot) has an empty extension. -/
def extOf (p : String) : String :=
  let base := (p.data.reverse.takeWhile (fun c => c ≠ '/')).reverse
  let stem := base.dropWhile (fun c => c = '.')
  let revExt := stem.reverse.takeWhile (fun c => c ≠ '.')
  if revExt.length < stem.length then String.mk ('.' :: revExt.reverse)
  else ""

/-- Python's `str.lower()` as a `String`. -/
def lowerString (s : String) : String :=
  String.mk (lowerChars s)

/-- The allowed extensions of the image stage
(`image_analyzer_agent.py` line 25). -/
def allowed_exts : List String :=
  [".jpeg", ".jpg", ".png", ".webp"]

/-- The filter of line 26: a truthy `local_path` whose lowercased
`splitext` extension is among the allowed ones. -/
def imageEligible (img : ImageRef) : Bool :=
  match img.local_path with
  | some p => p ≠ "" && allowed_exts.contains (lowerString (extOf p))
  | none => false

/-- The vision-eligible images (lines 26–29): filter to the allowed
extensions, then keep at most the first 2 in document order. -/
def visionEligible (imgs : List ImageRef) : List ImageRef :=
  (imgs.filter imageEligible).take 2

/-- What the filesystem yields for a local image path: the file's raw bytes
(as a string), an exception while opening/reading, or no such file
(`os.path.exists` false). -/
inductive FileResult where
  | found (contents : String)
  | readFailure (msg : String)
  | missing
deriving DecidableEq, Repr

/-- The MIME dictionary of lines 48–53, with default `'image/jpeg'`. -/
def mimeFor (ext : String) : String :=
  if ext = ".jpg" then "image/jpeg"
  else if ext = ".jpeg" then "image/jpeg"
  else if ext = ".png" then "image/png"
  else if ext = ".webp" then "image/webp"
  else "image/jpeg"

/-- The data URL of line 56, `f"data:{mime_type};base64,{img_base64}"`; the
base64 rendering of the bytes is abstracted to the bytes themselves (the
encoding is injective and no property here depends on its alphabet). -/
def dataUrl (mime contents : String) : String :=
  "data:" ++ mime ++ ";base64," ++ contents

/-- Per-image conversion (lines 36–72): when the path is truthy and the file
exists and reads successfully, a copy of the image dict gains `base64_data`
and `mime_type`; on read failure or a missing file the image is kept
unchanged (a single broken image never aborts the stage). -/
def convertImage (fs : String → FileResult) (img : ImageRef) : ImageRef :=
  match img.local_path with
  | some p =>
    if p ≠ "" then
      match fs p with
      | .found contents =>
        let mime := mimeFor (lowerString (extOf p))
        { img with
            base64_data := some (dataUrl mime contents)
            mime_type := some mime }
      | .readFailure _ => img
      | .missing => img
    else img
  | none => img

/-- One description request's recorded text (lines 98–114): the stripped
response on success, the fixed placeholder when the request raised. -/
def descText : CallResult → String
  | .ok text => pyStrip text
  | .err _ => "Error generating description"

/-- The per-image description loop (lines 80–114): images carrying a
`base64_data` payload each trigger exactly one description request, in
order; images without a payload are skipped. `k` indexes the next request in
`descOracle`. Each entry records the image's `url` with its description. -/
def describeImages (descOracle : Nat → CallResult) :
    List ImageRef → Nat → List (String × String)
  | [], _ => []
  | img :: rest, k =>
    match img.base64_data with
    | some _ =>
      (img.url, descText (descOracle k)) :: describeImages descOracle rest (k + 1)
    | none => describeImages descOracle rest k

/-- `ImageAnalyzerAgent.analyze_images` (`image_analyzer_agent.py`):
filter and cap the images, convert them (line 77 **replaces**
`seo_data['images']` with the filtered, converted list), record the
per-image descriptions into `seo_data['image_descriptions']`, then run the
shared retry loop for the aggregate analysis; its success branch writes
`image_analysis` and persists the whole document (lines 141–148), while a
raised exception reaches the outer `except`, which returns
`{"error": str(e)}` — with the images/descriptions mutations already done
but nothing persisted. -/
def analyze_images (fs : String → FileResult)
    (descOracle aggOracle : Nat → CallResult) (jitter : Nat → ℚ)
    (doc : SeoDocument) : StageTrace :=
  let filtered_images := visionEligible doc.images
  let images_with_base64 := filtered_images.map (convertImage fs)
  let doc1 := { doc with images := images_with_base64 }
  let image_descriptions := describeImages descOracle images_with_base64 0
  let doc2 := { doc1 with image_descriptions := image_descriptions }
  let lo := stageLoop aggOracle jitter Config.MAX_RETRIES
    Config.RATE_LIMIT_DELAY Config.MAX_RETRIES 0 0
  match lo.result with
  | .ok analysis =>
    let doc3 := { doc2 with image_analysis := some analysis }
    let path := analysisJsonPath doc3
    ⟨[Config.API_CALL_DELAY], lo.numCalls, lo.retryCalls, lo.retrySleeps,
      [.docWrite path doc3], doc3, .complete path⟩
  | .error msg =>
    ⟨[Config.API_CALL_DELAY], lo.numCalls, lo.retryCalls, lo.retrySleeps,
      [], doc2, .error msg⟩

/-! ## Concrete fixtures -/

/-- A scraped document as the Fetcher produces it (no analysis slots yet). -/
def docBase : SeoDocument :=
  { url := "https://example.com/page"
    title := "Example"
    meta_tags := [("description", "an example")]
    headings := ["H1"]
    paragraphs := ["hello world"]
    images := []
    content_analysis := none
    image_analysis := none
    keyword_analysis := none
    backlink_analysis := none
    url_analysis := none
    image_descriptions := [] }

/-- A reasoning service that always raises a non-rate-limit error. -/
def oracleBoom : Nat → CallResult := fun _ => .err "connection refused"

/-- A reasoning service that always answers. -/
def oracleOkText : Nat → CallResult := fun _ => .ok " markdown table "

/-- A zero draw for `random.uniform(0, 1)`. -/
def zeroJitter : Nat → ℚ := fun _ => 0

/-- An image reference with only scraped fields populated. -/
def mkImg (u p : String) : ImageRef :=
  { url := u, alt := "", title := "", local_path := some p
    base64_data := none, mime_type := none }

def demoJpg : ImageRef := mkImg "https://e.com/1.jpg" "seo_output/images/1.jpg"

def demoGif : ImageRef := mkImg "https://e.com/2.gif" "seo_output/images/2.gif"

def demoPng : ImageRef := mkImg "https://e.com/3.png" "seo_output/images/3.PNG"

def demoWebp : ImageRef :=
  mkImg "https://e.com/4.webp" "seo_output/images/4.webp"

def demoBmp : ImageRef := mkImg "https://e.com/5.bmp" "seo_output/images/5.bmp"

/-- Five scraped images of mixed types, in document order. -/
def demoImages : List ImageRef :=
  [demoJpg, demoGif, demoPng, demoWebp, demoBmp]

/-- A document whose only image is a `.gif`. -/
def gifDoc : SeoDocument := { docBase with images := [demoGif] }

/-- A filesystem on which no image file exists. -/
def fsMissing : String → FileResult := fun _ => .missing

/-- Two payload-bearing images for the description loop. -/
def imgP1 : ImageRef :=
  { url := "https://e.com/1.jpg", alt := "", title := ""
    local_path := some "seo_output/images/1.jpg"
    base64_data := some "data:image/jpeg;base64,xx"
    mime_type := some "image/jpeg" }

def imgP2 : ImageRef :=
  { url := "https://e.com/3.png", alt := "", title := ""
    local_path := some "seo_output/images/3.png"
    base64_data := some "data:image/png;base64,yy"
    mime_type := some "image/png" }

/-- A description service whose first request raises and whose later
requests answer. -/
def descFailFirst : Nat → CallResult :=
  fun k => if k = 0 then .err "boom" else .ok " a cat "

/-! ## C1: what a failing stage does to the shared document -/

/-- **C1 counterexample.** A keyword-stage invocation whose call raises a
non-rate-limit error returns the `{"error": ...}` dict but persists nothing
and leaves the shared document exactly as it was — no `error` entry is
written into it, contradicting the claimed persist-on-failure contract. -/
theorem failed_stage_error_entry_cex :
    (analyze_keywords oracleBoom zeroJitter docBase).outcome
        = .error "connection refused"
      ∧ (analyze_keywords oracleBoom zeroJitter docBase).persists = []
      ∧ (analyze_keywords oracleBoom zeroJitter docBase).finalDoc = docBase := by
  decide

/-- **C1 (amended).** When a stage's invocation fails, the stage only
returns the error message to its caller: it writes nothing into the shared
document (for the image stage, its analysis slot stays as it was) and
performs no persist at all — the persisted file retains only the output of
successful stages. -/
theorem failed_stage_no_persist_no_error_entry :
    (∀ (write : SeoDocument → String → SeoDocument)
        (oracle : Nat → CallResult) (jitter : Nat → ℚ)
        (doc : SeoDocument) (msg : String),
        (runTextStage write oracle jitter doc).outcome = .error msg →
          (runTextStage write oracle jitter doc).persists = []
            ∧ (runTextStage write oracle jitter doc).finalDoc = doc)
      ∧ (∀ (fs : String → FileResult) (dO aO : Nat → CallResult)
          (jitter : Nat → ℚ) (doc : SeoDocument) (msg : String),
          (analyze_images fs dO aO jitter doc).outcome = .error msg →
            (analyze_images fs dO aO jitter doc).persists = []
              ∧ (analyze_images fs dO aO jitter doc).finalDoc.image_analysis
                = doc.image_analysis) := by
  constructor
  · intro write oracle jitter doc msg h
    rcases hres : (stageLoop oracle jitter Config.MAX_RETRIES
        Config.RATE_LIMIT_DELAY Config.MAX_RETRIES 0 0).result with m | a
    · simp [runTextStage, hres]
    · simp [runTextStage, hres] at h
  · intro fs dO aO jitter doc msg h
    rcases hres : (stageLoop aO jitter Config.MAX_RETRIES
        Config.RATE_LIMIT_DELAY Config.MAX_RETRIES 0 0).result with m | a
    · simp [analyze_images, hres]
    · simp [analyze_images, hres] at h

/-- Witness for the amended C1 at a concrete failing keyword stage. -/
theorem failed_stage_no_persist_no_error_entry_witness :
    (runTextStage (fun d a => { d with keyword_analysis := some a })
        oracleBoom zeroJitter docBase).persists = []
      ∧ (runTextStage (fun d a => { d with keyword_analysis := some a })
          oracleBoom zeroJitter docBase).finalDoc = docBase :=
  failed_stage_no_persist_no_error_entry.1
    (fun d a => { d with keyword_analysis := some a })
    oracleBoom zeroJitter docBase "connection refused" (by decide)

/-! ## C2: the image stage's treatment of non-eligible images -/

/-- **C2 counterexample.** A document whose single image is a `.gif` (with a
local path) comes out of a successful image-stage run with an **empty**
`images` list: the ineligible image is dropped, not retained. -/
theorem image_stage_drops_ineligible_cex :
    gifDoc.images = [demoGif]
      ∧ (analyze_images fsMissing oracleOkText oracleOkText zeroJitter
          gifDoc).finalDoc.images = []
      ∧ (analyze_images fsMissing oracleOkText oracleOkText zeroJitter
          gifDoc).outcome
        = .complete "seo_output/example_com_analysis.json" := by
  decide

/-- **C2 (amended).** After the image stage runs, the document's `images`
list is exactly the vision-eligible images (first at most 2 with allowed
types and truthy local paths, in document order), each converted (gaining a
payload when its file reads successfully); all other images are removed from
the list. -/
theorem image_stage_images_are_converted_eligible
    (fs : String → FileResult) (dO aO : Nat → CallResult) (jitter : Nat → ℚ)
    (doc : SeoDocument) :
    (analyze_images fs dO aO jitter doc).finalDoc.images
      = (visionEligible doc.images).map (convertImage fs) := by
  rcases hres : (stageLoop aO jitter Config.MAX_RETRIES
      Config.RATE_LIMIT_DELAY Config.MAX_RETRIES 0 0).result with m | a <;>
    simp [analyze_images, hres]

/-! ## C5: the vision-eligible set -/

/-- Spec-side eligibility: a truthy local path whose lowercased extension is
one of the four allowed image types. -/
def EligibleSpec (img : ImageRef) : Prop :=
  ∃ p, img.local_path = some p ∧ p ≠ ""
    ∧ lowerString (extOf p) ∈ allowed_exts

/-- **C5.** The vision-eligible set is exactly the first at most 2 images,
in document order, whose (truthy) local path carries an allowed extension,
case-insensitively; on the 5-image mixed-type document
(`.jpg`, `.gif`, `.PNG`, `.webp`, `.bmp`) it is exactly the `.jpg` and
`.PNG` entries. -/
theorem vision_eligible_first_two_allowed :
    (∀ img : ImageRef, imageEligible img = true ↔ EligibleSpec img)
      ∧ (∀ imgs : List ImageRef,
          visionEligible imgs <+: imgs.filter imageEligible
            ∧ (visionEligible imgs).length ≤ 2
            ∧ (visionEligible imgs).Sublist imgs)
      ∧ visionEligible demoImages = [demoJpg, demoPng] := by
  refine ⟨?_, ?_, by decide⟩
  · intro img
    cases h : img.local_path with
    | none => simp [imageEligible, EligibleSpec, h]
    | some p => simp [imageEligible, EligibleSpec, h]
  · intro imgs
    exact ⟨List.take_prefix 2 _, List.length_take_le 2 _,
      ((List.take_prefix 2 _).sublist).trans (List.filter_sublist _)⟩

/-! ## C6: non-rate-limit failures abort immediately -/

/-- **C6.** A stage invocation whose first external call raises an error not
classified as a rate limit returns the failure at once: exactly one external
call, no `handle_rate_limit` call, no backoff sleep, no persist, the shared
document untouched, and the raised message as the outcome. -/
theorem non_rate_limit_error_fails_immediately
    (write : SeoDocument → String → SeoDocument) (oracle : Nat → CallResult)
    (jitter : Nat → ℚ) (doc : SeoDocument) (msg : String)
    (hcall : oracle 0 = .err msg)
    (hclass : is_rate_limit_error msg = false) :
    (runTextStage write oracle jitter doc).numCalls = 1
      ∧ (runTextStage write oracle jitter doc).retryCalls = 0
      ∧ (runTextStage write oracle jitter doc).retrySleeps = []
      ∧ (runTextStage write oracle jitter doc).persists = []
      ∧ (runTextStage write oracle jitter doc).finalDoc = doc
      ∧ (runTextStage write oracle jitter doc).outcome = .error msg := by
  have hloop : stageLoop oracle jitter Config.MAX_RETRIES
      Config.RATE_LIMIT_DELAY Config.MAX_RETRIES 0 0
        = ⟨1, 0, [], .error msg⟩ := by
    show stageLoop oracle jitter 3 Config.RATE_LIMIT_DELAY 3 0 0 = _
    simp [stageLoop, hcall, hclass]
  simp [runTextStage, hloop]

/-- Witness for C6: a keyword stage whose call raises
`"connection refused"`. -/
theorem non_rate_limit_error_fails_immediately_witness :
    (runTextStage (fun d a => { d with keyword_analysis := some a })
        oracleBoom zeroJitter docBase).numCalls = 1
      ∧ (runTextStage (fun d a => { d with keyword_analysis := some a })
          oracleBoom zeroJitter docBase).retryCalls = 0
      ∧ (runTextStage (fun d a => { d with keyword_analysis := some a })
          oracleBoom zeroJitter docBase).retrySleeps = []
      ∧ (runTextStage (fun d a => { d with keyword_analysis := some a })
          oracleBoom zeroJitter docBase).persists = []
      ∧ (runTextStage (fun d a => { d with keyword_analysis := some a })
          oracleBoom zeroJitter docBase).finalDoc = docBase
      ∧ (runTextStage (fun d a => { d with keyword_analysis := some a })
          oracleBoom zeroJitter docBase).outcome
        = .error "connection refused" :=
  non_rate_limit_error_fails_immediately
    (fun d a => { d with keyword_analysis := some a })
    oracleBoom zeroJitter docBase "connection refused" rfl (by decide)

/-! ## C8: the scraped fields are read-only after the Fetcher -/

/-- The five Fetcher-populated fields agree between two documents. -/
def ScrapedFieldsEq (a b : SeoDocument) : Prop :=
  a.url = b.url ∧ a.title = b.title ∧ a.meta_tags = b.meta_tags
    ∧ a.headings = b.headings ∧ a.paragraphs = b.paragraphs

/-- Any instantiation of the generic text stage leaves the scraped fields
of the shared document unchanged, provided its slot writer does. -/
lemma runTextStage_scraped_preserved
    (write : SeoDocument → String → SeoDocument)
    (hw : ∀ d a, ScrapedFieldsEq (write d a) d)
    (o : Nat → CallResult) (j : Nat → ℚ) (d : SeoDocument) :
    ScrapedFieldsEq (runTextStage write o j d).finalDoc d := by
  rcases hres : (stageLoop o j Config.MAX_RETRIES Config.RATE_LIMIT_DELAY
      Config.MAX_RETRIES 0 0).result with m | a
  · simp [runTextStage, hres, ScrapedFieldsEq]
  · simpa [runTextStage, hres] using hw d a

/-- **C8.** Every analysis stage — keyword, backlink, URL, content, final
report and image — leaves `url`, `title`, `meta_tags`, `headings` and
`paragraphs` exactly as the Fetcher produced them; in particular `url` never
changes after document creation. -/
theorem stages_preserve_scraped_fields :
    (∀ (o : Nat → CallResult) (j : Nat → ℚ) (d : SeoDocument),
        ScrapedFieldsEq (analyze_keywords o j d).finalDoc d)
      ∧ (∀ (o : Nat → CallResult) (j : Nat → ℚ) (d : SeoDocument),
          ScrapedFieldsEq (analyze_backlinks o j d).finalDoc d)
      ∧ (∀ (o : Nat → CallResult) (j : Nat → ℚ) (d : SeoDocument),
          ScrapedFieldsEq (analyze_urls o j d).finalDoc d)
      ∧ (∀ (o : Nat → CallResult) (j : Nat → ℚ) (d : SeoDocument),
          ScrapedFieldsEq (analyze_content o j d).finalDoc d)
      ∧ (∀ (o : Nat → CallResult) (j : Nat → ℚ) (d : SeoDocument),
          ScrapedFieldsEq (analyze_seo_performance o j d).finalDoc d)
      ∧ (∀ (fs : String → FileResult) (dO aO : Nat → CallResult)
          (j : Nat → ℚ) (d : SeoDocument),
          ScrapedFieldsEq (analyze_images fs dO aO j d).finalDoc d) := by
  refine ⟨?_, ?_, ?_, ?_, ?_, ?_⟩
  · exact fun o j d => runTextStage_scraped_preserved _
      (fun d a => by simp [ScrapedFieldsEq]) o j d
  · exact fun o j d => runTextStage_scraped_preserved _
      (fun d a => by simp [ScrapedFieldsEq]) o j d
  · exact fun o j d => runTextStage_scraped_preserved _
      (fun d a => by simp [ScrapedFieldsEq]) o j d
  · exact fun o j d => runTextStage_scraped_preserved _
      (fun d a => by simp [ScrapedFieldsEq]) o j d
  · intro o j d
    rcases hres : (stageLoop o j Config.MAX_RETRIES Config.RATE_LIMIT_DELAY
        Config.MAX_RETRIES 0 0).result with m | a <;>
      simp [analyze_seo_performance, hres, ScrapedFieldsEq]
  · intro fs dO aO j d
    rcases hres : (stageLoop aO j Config.MAX_RETRIES Config.RATE_LIMIT_DELAY
        Config.MAX_RETRIES 0 0).result with m | a <;>
      simp [analyze_images, hres, ScrapedFieldsEq]

/-! ## C9: per-image description isolation -/

/-- **C9.** The description loop processes exactly the payload-bearing
images in order, one request each, and each recorded entry depends only on
that image's own request: a failed request records the fixed placeholder
while all other images' requests still proceed. The concrete instance shows
the first of two payload images failing and the second still described; in
every image-stage run, the document's `image_descriptions` is this loop's
output over the converted eligible images. -/
theorem image_description_failures_isolated :
    (∀ (dO : Nat → CallResult) (imgs : List ImageRef) (k : Nat),
        describeImages dO imgs k
          = List.zipWith (fun img j => (img.url, descText (dO j)))
              (imgs.filter (fun i => i.base64_data.isSome))
              (List.range' k
                (imgs.filter (fun i => i.base64_data.isSome)).length))
      ∧ describeImages descFailFirst [imgP1, imgP2] 0
          = [("https://e.com/1.jpg", "Error generating description"),
              ("https://e.com/3.png", "a cat")]
      ∧ (∀ (fs : String → FileResult) (dO aO : Nat → CallResult)
          (j : Nat → ℚ) (d : SeoDocument),
          (analyze_images fs dO aO j d).finalDoc.image_descriptions
            = describeImages dO
                ((visionEligible d.images).map (convertImage fs)) 0) := by
  refine ⟨?_, by decide, ?_⟩
  · intro dO imgs k
    induction imgs generalizing k with
    | nil => simp [describeImages]
    | cons img rest ih =>
      cases hb : img.base64_data with
      | none => simp [describeImages, hb, List.filter_cons, ih]
      | some v =>
        simp [describeImages, hb, List.filter_cons, List.range'_succ, ih]
  · intro fs dO aO j d
    rcases hres : (stageLoop aO j Config.MAX_RETRIES Config.RATE_LIMIT_DELAY
        Config.MAX_RETRIES 0 0).result with m | a <;>
      simp [analyze_images, hres]
